import Mathlib

/-!
Verification of the `ParkingCapacityEstimator` of
`src/backend/parking_time_estimators/estimator.py` (repository Parkest).

The Python module trains a scikit-learn pipeline
(one-hot encoding of `day_type` with `handle_unknown="ignore"`, numeric
passthrough of `total_capacity`, `latitude`, `longitude`, and the cyclical
hour features `hour_sin`, `hour_cos`; then a `RandomForestRegressor` with
`n_estimators=300, max_depth=12, random_state=42`) and exposes two query
methods, `predict` and `predict_search_time`.

Shallow embedding choices: Python floats are modelled by the reals; the
fitted ensemble regressor is an abstract function from the encoded feature
vector to a real (the repository treats it as an opaque `fit/predict`
capability), while everything the repository's own code computes — the
trigonometric hour encoding, the one-hot transform with its unknown-category
behaviour, the feature-vector assembly, and the entire search-time
heuristic — is translated line by line from the source.
-/

/-- Module-level constant `FIXED_SEARCH_TIME = 2.5` of `estimator.py`. -/
noncomputable def FIXED_SEARCH_TIME : ℝ := 2.5

/-- Module-level constant `TIME_PER_SPOT = 1.2` of `estimator.py`. -/
noncomputable def TIME_PER_SPOT : ℝ := 1.2

/-- Module-level constant `TIME_PENALTY = 10` of `estimator.py`. -/
noncomputable def TIME_PENALTY : ℝ := 10

/-- The cyclical encoding `np.sin(2 * np.pi * hour / 24)` computed both in
`_load_and_train` and in `predict`. -/
noncomputable def hour_sin (hour : ℝ) : ℝ := Real.sin (2 * Real.pi * hour / 24)

/-- The cyclical encoding `np.cos(2 * np.pi * hour / 24)` computed both in
`_load_and_train` and in `predict`. -/
noncomputable def hour_cos (hour : ℝ) : ℝ := Real.cos (2 * Real.pi * hour / 24)

/-- The transform step of `OneHotEncoder(handle_unknown="ignore")` on the
single categorical column `day_type`, given the vocabulary fixed at fit
time: one indicator position per vocabulary entry, and a category outside
the vocabulary produces the all-zero row instead of an error. -/
def oneHotTransform (vocab : List String) (c : String) : List ℝ :=
  vocab.map (fun v => if v = c then 1 else 0)

/-- The state owned by the estimator after `_load_and_train` has finished:
the fitted one-hot vocabulary of the `ColumnTransformer`'s `cat` branch and
the fitted `RandomForestRegressor`, the latter abstracted as a function from
the post-encoding numeric feature vector to the scalar prediction. -/
structure FittedModel where
  vocab : List String
  regressor : List ℝ → ℝ

/-- The feature-vector assembly done by the fitted `ColumnTransformer`:
the encoded categorical block first, then the passthrough numeric columns
`total_capacity`, `latitude`, `longitude`, `hour_sin`, `hour_cos` in the
fixed order declared in `_load_and_train`. -/
noncomputable def featureRow (vocab : List String) (day_type : String)
    (hour total_capacity latitude longitude : ℝ) : List ℝ :=
  oneHotTransform vocab day_type ++
    [total_capacity, latitude, longitude, hour_sin hour, hour_cos hour]

/-- `ParkingCapacityEstimator.predict`: recompute `hour_sin`/`hour_cos`,
assemble the one-row frame, run it through the fitted pipeline and return
the scalar output unchanged. -/
noncomputable def FittedModel.predict (M : FittedModel) (day_type : String)
    (hour total_capacity latitude longitude : ℝ) : ℝ :=
  M.regressor (featureRow M.vocab day_type hour total_capacity latitude longitude)

/-- `ParkingCapacityEstimator.predict_search_time`, translated line by line:
`p_occupied` from `predict`, `p_free = 1 - p_occupied`, the `1e-3` fallback
on `expected_spots`, the linear time formula, and the `0.05` congestion
penalty added in place. -/
noncomputable def FittedModel.predict_search_time (M : FittedModel) (day_type : String)
    (hour total_capacity latitude longitude : ℝ) : ℝ :=
  let p_occupied := M.predict day_type hour total_capacity latitude longitude
  let p_free := 1 - p_occupied
  let expected_spots := if p_free < 1e-3 then total_capacity * 2 else 1 / p_free
  let total_time := expected_spots * TIME_PER_SPOT + FIXED_SEARCH_TIME
  if p_free < 0.05 then total_time + TIME_PENALTY else total_time

/-- The search-time formula exactly as the specification words it (§4.5 /
claim C1): the branch on `p_free < 0.001` choosing `total_capacity × 2`
versus `1 / p_free`, then `expected_spots × 1.2 + 2.5`, plus a flat `10`
when `p_free < 0.05`; both thresholds compare `p_free`. -/
noncomputable def searchTimeSpec (p_free total_capacity : ℝ) : ℝ :=
  (if p_free < 0.001 then total_capacity * 2 else 1 / p_free) * 1.2 + 2.5 +
    (if p_free < 0.05 then 10 else 0)

/-- The code's heuristic agrees with the specification's formula applied to
`p_free = 1 - predict(...)`. -/
theorem predict_search_time_eq_spec (M : FittedModel) (day_type : String)
    (hour total_capacity latitude longitude : ℝ) :
    M.predict_search_time day_type hour total_capacity latitude longitude =
      searchTimeSpec (1 - M.predict day_type hour total_capacity latitude longitude)
        total_capacity := by
  unfold FittedModel.predict_search_time searchTimeSpec
  simp only [FIXED_SEARCH_TIME, TIME_PER_SPOT, TIME_PENALTY]
  norm_num
  split_ifs <;> ring

/-- The search-time formula never increases when `p_free` increases, as long
as the fallback value `total_capacity * 2` dominates `1 / 0.001 = 1000`,
i.e. `total_capacity ≥ 500`. -/
theorem searchTimeSpec_anti {total_capacity : ℝ} (hcap : 500 ≤ total_capacity)
    {a b : ℝ} (hba : b ≤ a) :
    searchTimeSpec a total_capacity ≤ searchTimeSpec b total_capacity := by
  unfold searchTimeSpec
  rcases lt_or_le a 0.001 with ha | ha
  · have hb : b < 0.001 := lt_of_le_of_lt hba ha
    have ha5 : a < 0.05 := lt_trans ha (by norm_num)
    have hb5 : b < 0.05 := lt_of_le_of_lt hba ha5
    rw [if_pos ha, if_pos hb, if_pos ha5, if_pos hb5]
  · have ha0 : (0 : ℝ) < a := lt_of_lt_of_le (by norm_num) ha
    have hia : 1 / a ≤ 1000 := by
      rw [div_le_iff₀ ha0]; nlinarith
    rw [if_neg (not_lt.mpr ha)]
    rcases lt_or_le b 0.001 with hb | hb
    · have hb5 : b < 0.05 := lt_trans hb (by norm_num)
      rw [if_pos hb, if_pos hb5]
      have hpen : (if a < 0.05 then (10 : ℝ) else 0) ≤ 10 := by
        split_ifs <;> norm_num
      nlinarith
    · have hb0 : (0 : ℝ) < b := lt_of_lt_of_le (by norm_num) hb
      have hinv : 1 / a ≤ 1 / b := one_div_le_one_div_of_le hb0 hba
      rw [if_neg (not_lt.mpr hb)]
      have hpen : (if a < 0.05 then (10 : ℝ) else 0) ≤
          (if b < 0.05 then (10 : ℝ) else 0) := by
        split_ifs with h1 h2
        · exact le_refl _
        · exact absurd (lt_of_le_of_lt hba h1) h2
        · norm_num
        · exact le_refl _
      linarith

/-- A fitted model whose ensemble constantly predicts occupancy `0.999`,
giving `p_free = 0.001` exactly (just outside the fallback branch). -/
noncomputable def Mlo : FittedModel := ⟨["SA"], fun _ => 0.999⟩

/-- A fitted model whose ensemble constantly predicts occupancy `0.9995`,
giving `p_free = 0.0005` (inside the fallback branch). -/
noncomputable def Mhi : FittedModel := ⟨["SA"], fun _ => 0.9995⟩

/-- A fitted model whose ensemble constantly predicts occupancy `0`. -/
def Mzero : FittedModel := ⟨["weekday", "weekend"], fun _ => 0⟩

/-- A fitted model whose ensemble constantly predicts occupancy `2`, outside
the `[0, 1]` probability range. -/
def Mtwo : FittedModel := ⟨["SA"], fun _ => 2⟩

/-- C1: `predict_search_time` computes `p_free = 1 - predict(...)`; if
`p_free < 0.001` it sets `expected_spots = total_capacity * 2`, otherwise
`expected_spots = 1 / p_free`; it sets
`total_time = expected_spots * 1.2 + 2.5`, adds a flat `10` exactly when
`p_free < 0.05`, and returns `total_time` — both thresholds compare
`p_free`. The right-hand side `searchTimeSpec` is that formula verbatim. -/
theorem C1_search_time_matches_spec (M : FittedModel) (day_type : String)
    (hour total_capacity latitude longitude : ℝ) :
    M.predict_search_time day_type hour total_capacity latitude longitude =
      searchTimeSpec (1 - M.predict day_type hour total_capacity latitude longitude)
        total_capacity :=
  predict_search_time_eq_spec M day_type hour total_capacity latitude longitude

/-- C7: the cyclical hour encoding agrees at `hour = 0` and `hour = 24`
(period 24), and every hour lands on the unit circle. -/
theorem C7_hour_encoding_periodic_unit_circle :
    hour_sin 0 = hour_sin 24 ∧ hour_cos 0 = hour_cos 24 ∧
    ∀ h : ℝ, hour_sin h ^ 2 + hour_cos h ^ 2 = 1 := by
  have h0 : 2 * Real.pi * 0 / 24 = 0 := by ring
  have h24 : 2 * Real.pi * 24 / 24 = 2 * Real.pi := by ring
  refine ⟨?_, ?_, fun h => Real.sin_sq_add_cos_sq _⟩
  · rw [hour_sin, hour_sin, h0, h24, Real.sin_zero, Real.sin_two_pi]
  · rw [hour_cos, hour_cos, h0, h24, Real.cos_zero, Real.cos_two_pi]


/-- C2 fails on the code as stated: with `total_capacity = 100`, raising the
predicted occupancy from `0.999` (search time `1212.5`) to `0.9995` (search
time `252.5`, via the fallback branch) strictly decreases the result. -/
theorem C2_counterexample_monotonicity :
    Mlo.predict "SA" 18 100 0 0 ≤ Mhi.predict "SA" 18 100 0 0 ∧
    ¬ (Mlo.predict_search_time "SA" 18 100 0 0 ≤
        Mhi.predict_search_time "SA" 18 100 0 0) := by
  have hlo : Mlo.predict "SA" 18 100 0 0 = 0.999 := rfl
  have hhi : Mhi.predict "SA" 18 100 0 0 = 0.9995 := rfl
  constructor
  · rw [hlo, hhi]; norm_num
  · rw [predict_search_time_eq_spec, predict_search_time_eq_spec, hlo, hhi]
    unfold searchTimeSpec
    rw [if_neg (by norm_num : ¬ ((1 : ℝ) - 0.999 < 0.001)),
      if_pos (by norm_num : (1 : ℝ) - 0.999 < 0.05),
      if_pos (by norm_num : (1 : ℝ) - 0.9995 < 0.001),
      if_pos (by norm_num : (1 : ℝ) - 0.9995 < 0.05)]
    norm_num

/-- C2 amended: with all other query arguments fixed and
`total_capacity ≥ 500` (so that the fallback value `total_capacity * 2` is
at least `1 / 0.001`), the returned search time is monotonically
non-decreasing in the predicted occupancy. -/
theorem C2_monotone_for_large_capacity (M1 M2 : FittedModel) (day_type : String)
    (hour total_capacity latitude longitude : ℝ)
    (hcap : 500 ≤ total_capacity)
    (hle : M1.predict day_type hour total_capacity latitude longitude ≤
        M2.predict day_type hour total_capacity latitude longitude) :
    M1.predict_search_time day_type hour total_capacity latitude longitude ≤
      M2.predict_search_time day_type hour total_capacity latitude longitude := by
  rw [predict_search_time_eq_spec, predict_search_time_eq_spec]
  exact searchTimeSpec_anti hcap (by linarith)

/-- Concrete instance of the amended C2: capacity `500`, occupancies `0`
and `2`. -/
theorem C2_monotone_witness :
    (500 : ℝ) ≤ 500 ∧
    Mzero.predict "SA" 18 500 0 0 ≤ Mtwo.predict "SA" 18 500 0 0 ∧
    Mzero.predict_search_time "SA" 18 500 0 0 ≤
      Mtwo.predict_search_time "SA" 18 500 0 0 :=
  ⟨le_refl 500, by show (0 : ℝ) ≤ 2; norm_num,
    C2_monotone_for_large_capacity Mzero Mtwo "SA" 18 500 0 0 (le_refl 500)
      (by show (0 : ℝ) ≤ 2; norm_num)⟩

/-- C3: whenever the model's output leaves `p_free = 0.0005` and the facility
has `total_capacity = 100`, `predict_search_time` returns `252.5`
(`expected_spots = 200` by the fallback, `200 * 1.2 + 2.5 = 242.5`, plus the
`+10` penalty since `0.0005 < 0.05`). -/
theorem C3_fallback_scenario (M : FittedModel) (day_type : String)
    (hour latitude longitude : ℝ)
    (hp : 1 - M.predict day_type hour 100 latitude longitude = 0.0005) :
    M.predict_search_time day_type hour 100 latitude longitude = 252.5 := by
  rw [predict_search_time_eq_spec, hp]
  unfold searchTimeSpec
  rw [if_pos (by norm_num : (0.0005 : ℝ) < 0.001),
    if_pos (by norm_num : (0.0005 : ℝ) < 0.05)]
  norm_num

/-- Concrete instance of C3 on the constant-`0.9995` model. -/
theorem C3_fallback_scenario_witness :
    1 - Mhi.predict "SA" 18 100 0 0 = 0.0005 ∧
    Mhi.predict_search_time "SA" 18 100 0 0 = 252.5 := by
  have h : 1 - Mhi.predict "SA" 18 100 0 0 = 0.0005 := by
    show (1 : ℝ) - 0.9995 = 0.0005; norm_num
  exact ⟨h, C3_fallback_scenario Mhi "SA" 18 0 0 h⟩

/-- C10: once the fallback branch fires (`p_free < 0.001`), the penalty
branch fires too (`0.001 < 0.05`), so the result is exactly
`total_capacity * 2 * 1.2 + 2.5 + 10`, which is at least `12.5` whenever
`total_capacity ≥ 0`. -/
theorem C10_fallback_implies_penalty (M : FittedModel) (day_type : String)
    (hour total_capacity latitude longitude : ℝ)
    (hp : 1 - M.predict day_type hour total_capacity latitude longitude < 0.001)
    (hcap : 0 ≤ total_capacity) :
    M.predict_search_time day_type hour total_capacity latitude longitude =
      total_capacity * 2 * 1.2 + 2.5 + 10 ∧
    (12.5 : ℝ) ≤
      M.predict_search_time day_type hour total_capacity latitude longitude := by
  have h5 : 1 - M.predict day_type hour total_capacity latitude longitude < 0.05 :=
    lt_trans hp (by norm_num)
  have heq : M.predict_search_time day_type hour total_capacity latitude longitude =
      total_capacity * 2 * 1.2 + 2.5 + 10 := by
    rw [predict_search_time_eq_spec]
    unfold searchTimeSpec
    rw [if_pos hp, if_pos h5]
  refine ⟨heq, ?_⟩
  rw [heq]
  nlinarith

/-- Concrete instance of C10 on the constant-`2` model (`p_free = -1`). -/
theorem C10_fallback_witness :
    1 - Mtwo.predict "SA" 18 100 0 0 < 0.001 ∧ (0 : ℝ) ≤ 100 ∧
    (Mtwo.predict_search_time "SA" 18 100 0 0 = 100 * 2 * 1.2 + 2.5 + 10 ∧
      (12.5 : ℝ) ≤ Mtwo.predict_search_time "SA" 18 100 0 0) := by
  have h : 1 - Mtwo.predict "SA" 18 100 0 0 < 0.001 := by
    show (1 : ℝ) - 2 < 0.001; norm_num
  exact ⟨h, by norm_num,
    C10_fallback_implies_penalty Mtwo "SA" 18 100 0 0 h (by norm_num)⟩

/-- C6: `predict` returns the fitted pipeline's raw scalar output on the
assembled feature row unchanged — no clamping to `[0, 1]` — and a fitted
model whose ensemble extrapolates outside `[0, 1]` makes `predict` return a
value above `1`. -/
theorem C6_raw_output_no_clamping :
    (∀ (M : FittedModel) (day_type : String)
        (hour total_capacity latitude longitude : ℝ),
      M.predict day_type hour total_capacity latitude longitude =
        M.regressor
          (featureRow M.vocab day_type hour total_capacity latitude longitude)) ∧
    ∃ (M : FittedModel) (day_type : String)
        (hour total_capacity latitude longitude : ℝ),
      1 < M.predict day_type hour total_capacity latitude longitude := by
  refine ⟨fun _ _ _ _ _ _ => rfl, ⟨Mtwo, "SA", 18, 100, 0, 0, ?_⟩⟩
  show (1 : ℝ) < 2
  norm_num

/-- A category outside the fitted vocabulary is transformed to the all-zero
indicator row (`handle_unknown="ignore"`). -/
theorem oneHotTransform_unseen {vocab : List String} {c : String}
    (hc : c ∉ vocab) :
    oneHotTransform vocab c = List.replicate vocab.length 0 := by
  rw [List.eq_replicate_iff]
  refine ⟨by simp [oneHotTransform], fun b hb => ?_⟩
  simp only [oneHotTransform, List.mem_map] at hb
  obtain ⟨v, hv, hvb⟩ := hb
  have hvc : ¬ (v = c) := by
    intro h
    exact hc (h ▸ hv)
  rw [if_neg hvc] at hvb
  exact hvb.symm

/-- C4: for a `day_type` outside the training vocabulary, the fitted encoder
produces the all-zero indicator row, and `predict` still returns the (total,
hence finite) regressor value on that zero-padded feature row instead of
failing. -/
theorem C4_unseen_day_type_zero_encoded (M : FittedModel) (day_type : String)
    (hour total_capacity latitude longitude : ℝ) (hd : day_type ∉ M.vocab) :
    oneHotTransform M.vocab day_type = List.replicate M.vocab.length 0 ∧
    M.predict day_type hour total_capacity latitude longitude =
      M.regressor (List.replicate M.vocab.length 0 ++
        [total_capacity, latitude, longitude, hour_sin hour, hour_cos hour]) := by
  have h := oneHotTransform_unseen hd
  refine ⟨h, ?_⟩
  show M.regressor
      (featureRow M.vocab day_type hour total_capacity latitude longitude) = _
  rw [featureRow, h]

/-- Concrete instance of C4: `"HOLIDAY"` is not in the fitted vocabulary
`["weekday", "weekend"]`. -/
theorem C4_unseen_day_type_witness :
    "HOLIDAY" ∉ Mzero.vocab ∧
    (oneHotTransform Mzero.vocab "HOLIDAY" = List.replicate Mzero.vocab.length 0 ∧
      Mzero.predict "HOLIDAY" 18 100 0 0 =
        Mzero.regressor (List.replicate Mzero.vocab.length 0 ++
          [100, 0, 0, hour_sin 18, hour_cos 18])) :=
  ⟨by decide, C4_unseen_day_type_zero_encoded Mzero "HOLIDAY" 18 100 0 0 (by decide)⟩

/-- One historical observation of the training table read by `pd.read_csv`. -/
structure TrainingRecord where
  day_type : String
  hour : ℝ
  total_capacity : ℝ
  latitude : ℝ
  longitude : ℝ
  occupancy_rate : ℝ

/-- The hyperparameters `_load_and_train` passes to `RandomForestRegressor`. -/
structure RandomForestConfig where
  n_estimators : ℕ
  max_depth : ℕ
  random_state : ℕ

/-- The fixed configuration of the source:
`RandomForestRegressor(n_estimators=300, max_depth=12, random_state=42)`. -/
def forestConfig : RandomForestConfig := ⟨300, 12, 42⟩

/-- Fit phase of `OneHotEncoder`: the distinct `day_type` values observed in
the training frame, in discovery order. -/
def fitVocab (df : List TrainingRecord) : List String :=
  df.foldl (fun acc r => if r.day_type ∈ acc then acc else acc ++ [r.day_type]) []

/-- `_load_and_train`: fit the one-hot vocabulary, build the encoded design
matrix (one `featureRow` plus the `occupancy_rate` target per record) and fit
the forest. `rfFit` abstracts `RandomForestRegressor(...).fit`, a
deterministic function of the hyperparameters — the seed `random_state`
included — and of the design matrix, which is what scikit-learn guarantees
for a fixed `random_state`. -/
noncomputable def _load_and_train
    (rfFit : RandomForestConfig → List (List ℝ × ℝ) → (List ℝ → ℝ))
    (df : List TrainingRecord) : FittedModel :=
  let vocab := fitVocab df
  { vocab := vocab
    regressor := rfFit forestConfig
      (df.map (fun r =>
        (featureRow vocab r.day_type r.hour r.total_capacity r.latitude r.longitude,
          r.occupancy_rate))) }

/-- C5: training twice on identical data with the source's fixed
configuration (`n_estimators=300, max_depth=12, random_state=42`, embodied in
`forestConfig` inside `_load_and_train`) yields equal fitted models, and
`predict` / `predict_search_time` then return identical results for the same
query, for every deterministic fitting procedure. -/
theorem C5_training_deterministic
    (rfFit : RandomForestConfig → List (List ℝ × ℝ) → (List ℝ → ℝ))
    (df1 df2 : List TrainingRecord) (hdf : df1 = df2)
    (day_type : String) (hour total_capacity latitude longitude : ℝ) :
    _load_and_train rfFit df1 = _load_and_train rfFit df2 ∧
    (_load_and_train rfFit df1).predict day_type hour total_capacity
        latitude longitude =
      (_load_and_train rfFit df2).predict day_type hour total_capacity
        latitude longitude ∧
    (_load_and_train rfFit df1).predict_search_time day_type hour total_capacity
        latitude longitude =
      (_load_and_train rfFit df2).predict_search_time day_type hour total_capacity
        latitude longitude := by
  subst hdf
  exact ⟨rfl, rfl, rfl⟩

/-- A concrete deterministic stand-in for the library fitting procedure. -/
def rfFit0 : RandomForestConfig → List (List ℝ × ℝ) → (List ℝ → ℝ) :=
  fun _ _ _ => 0

/-- A concrete one-row training frame. -/
noncomputable def df0 : List TrainingRecord :=
  [⟨"SA", 18, 100, 48.5, 11.5, 0.5⟩]

/-- Concrete instance of C5. -/
theorem C5_training_deterministic_witness :
    df0 = df0 ∧
    (_load_and_train rfFit0 df0 = _load_and_train rfFit0 df0 ∧
      (_load_and_train rfFit0 df0).predict "SA" 18 100 0 0 =
        (_load_and_train rfFit0 df0).predict "SA" 18 100 0 0 ∧
      (_load_and_train rfFit0 df0).predict_search_time "SA" 18 100 0 0 =
        (_load_and_train rfFit0 df0).predict_search_time "SA" 18 100 0 0) :=
  ⟨rfl, C5_training_deterministic rfFit0 df0 df0 rfl "SA" 18 100 0 0⟩

/-- Raw tabular input as read by `pd.read_csv`: a header and rows of cells. -/
structure RawData where
  columns : List String
  rows : List (List String)

/-- The spec's error-taxonomy item for malformed training data (§7). -/
inductive DataShapeError
  | dataShape
deriving DecidableEq

/-- The columns the training step reads: the five features and the target. -/
def requiredColumns : List String :=
  ["day_type", "hour", "total_capacity", "latitude", "longitude", "occupancy_rate"]

/-- Modelled from the spec: the shape check of the encoding/fitting layer.
`estimator.py` delegates it to the pandas/scikit-learn layer, whose code is
not part of this repository; the specification (§4.3, §7) states that fitting
on fewer than one row, or with a required column absent, fails with a
`DataShapeError` propagated from that layer. -/
def checkDataShape (df : RawData) : Except DataShapeError Unit :=
  if 1 ≤ df.rows.length ∧ ∀ c ∈ requiredColumns, c ∈ df.columns then .ok ()
  else .error .dataShape

/-- `ParkingCapacityEstimator.__init__`: run `_load_and_train` once at
construction; a `DataShapeError` of the load/fit layer propagates out of the
constructor, so on failure no estimator value is produced at all. -/
noncomputable def estimatorInit
    (rfFit : RandomForestConfig → List (List ℝ × ℝ) → (List ℝ → ℝ))
    (parseRows : RawData → List TrainingRecord)
    (df : RawData) : Except DataShapeError FittedModel :=
  match checkDataShape df with
  | .error e => .error e
  | .ok _ => .ok (_load_and_train rfFit (parseRows df))

/-- C8: on a training table with fewer than one row or with a required column
missing, construction returns the `DataShapeError` — and consequently exposes
no (partially trained) estimator value. -/
theorem C8_construction_fails_on_bad_shape
    (rfFit : RandomForestConfig → List (List ℝ × ℝ) → (List ℝ → ℝ))
    (parseRows : RawData → List TrainingRecord) (df : RawData)
    (hbad : df.rows.length < 1 ∨ ∃ c ∈ requiredColumns, c ∉ df.columns) :
    estimatorInit rfFit parseRows df = .error DataShapeError.dataShape ∧
    ∀ M : FittedModel, estimatorInit rfFit parseRows df ≠ .ok M := by
  have hcond : ¬ (1 ≤ df.rows.length ∧ ∀ c ∈ requiredColumns, c ∈ df.columns) := by
    rintro ⟨h1, h2⟩
    rcases hbad with h | ⟨c, hc, hnc⟩
    · omega
    · exact hnc (h2 c hc)
  have herr : estimatorInit rfFit parseRows df = .error DataShapeError.dataShape := by
    unfold estimatorInit checkDataShape
    rw [if_neg hcond]
  refine ⟨herr, fun M hM => ?_⟩
  rw [herr] at hM
  exact Except.noConfusion hM

/-- A table with the right header but zero rows. -/
def dfEmpty : RawData := ⟨requiredColumns, []⟩

/-- Concrete instance of C8 on the empty table. -/
theorem C8_construction_fails_witness :
    (dfEmpty.rows.length < 1 ∨ ∃ c ∈ requiredColumns, c ∉ dfEmpty.columns) ∧
    (estimatorInit rfFit0 (fun _ => []) dfEmpty = .error DataShapeError.dataShape ∧
      ∀ M : FittedModel, estimatorInit rfFit0 (fun _ => []) dfEmpty ≠ .ok M) :=
  ⟨Or.inl (by decide),
    C8_construction_fails_on_bad_shape rfFit0 (fun _ => []) dfEmpty
      (Or.inl (by decide))⟩

/-- The instance attributes `__init__` leaves behind: `csv_path`, the fitted
`preprocessor` (summarised by its fitted vocabulary) and `model`. -/
structure EstimatorState where
  csv_path : String
  preprocessor : List String
  model : FittedModel

/-- State-passing translation of the method `predict`: its body only reads
`self.model`, assigns no attribute, so the returned state is the input
state. -/
noncomputable def predictMethod (self : EstimatorState) (day_type : String)
    (hour total_capacity latitude longitude : ℝ) : ℝ × EstimatorState :=
  (self.model.predict day_type hour total_capacity latitude longitude, self)

/-- State-passing translation of `predict_search_time`: it calls `predict`
(threading the state through that call) and otherwise computes on locals
only. -/
noncomputable def predict_search_timeMethod (self : EstimatorState)
    (day_type : String) (hour total_capacity latitude longitude : ℝ) :
    ℝ × EstimatorState :=
  let call := predictMethod self day_type hour total_capacity latitude longitude
  let p_occupied := call.1
  let p_free := 1 - p_occupied
  let expected_spots := if p_free < 1e-3 then total_capacity * 2 else 1 / p_free
  let total_time := expected_spots * TIME_PER_SPOT + FIXED_SEARCH_TIME
  (if p_free < 0.05 then total_time + TIME_PENALTY else total_time, call.2)

/-- A query against the estimator: one call to either public method. -/
inductive EstimatorCall
  | predictQ (day_type : String) (hour total_capacity latitude longitude : ℝ)
  | searchTimeQ (day_type : String) (hour total_capacity latitude longitude : ℝ)

/-- Dispatch one query. -/
noncomputable def runCall (self : EstimatorState) :
    EstimatorCall → ℝ × EstimatorState
  | .predictQ d h c la lo => predictMethod self d h c la lo
  | .searchTimeQ d h c la lo => predict_search_timeMethod self d h c la lo

/-- Run a sequence of queries, threading the estimator state through. -/
noncomputable def runCalls (self : EstimatorState) :
    List EstimatorCall → EstimatorState
  | [] => self
  | c :: cs => runCalls (runCall self c).2 cs

/-- C9: after any sequence of `predict` / `predict_search_time` calls, every
field of the estimator (`csv_path`, `preprocessor`, `model`) is exactly what
construction left there: the queries are side-effect-free. -/
theorem C9_queries_preserve_state (self : EstimatorState)
    (calls : List EstimatorCall) :
    runCalls self calls = self := by
  induction calls generalizing self with
  | nil => rfl
  | cons c cs ih =>
    have hc : (runCall self c).2 = self := by cases c <;> rfl
    calc runCalls self (c :: cs) = runCalls (runCall self c).2 cs := rfl
    _ = self := by rw [hc]; exact ih self
